import Mathlib

/-!
Verification of the inventory manager in `src/src/components/InventoryApp.tsx`
(the barcode-enabled version of the component, whose line numbers the spec
refers to).  The component is a React function component; its handlers are
embedded here as pure functions over an explicit application state.

Modelling conventions:
* JavaScript numbers are modelled as `ℚ` (the claims only compare them with 0
  and ask about integrality, which `ℚ` represents exactly); `Date.now()`
  timestamps and item ids as `Nat`.
* `localStorage` is modelled as the list of items it holds; each `api`
  function becomes a pure function from that list.
* A JS `string | undefined` field is `Option String`; JS truthiness of a
  string value (`undefined` and `""` are falsy) is spelled out at each use.
* Async handlers are sequences of awaited steps with no interleaving (the app
  is single-threaded and the spec assumes the UI serializes actions), so each
  handler is one state-to-state function.
-/

namespace Inventory

/-- The `Item` interface: `{ id: number; name: string; quantity: number;
barcode?: string }`.  `barcode` is optional, hence `Option String`. -/
structure Item where
  id : Nat
  name : String
  quantity : ℚ
  barcode : Option String
deriving Repr, DecidableEq

/-- The snackbar payload set by `setSnackbar` (its `open` flag is folded into
the `Option` at the use sites below). -/
structure Snackbar where
  message : String
  severity : String
deriving Repr, DecidableEq

/-- `api.getItems`: reads the whole list from storage (the 1000 ms sleep has
no observable effect on the value). -/
def getItems (store : List Item) : List Item := store

/-- `api.addItem(item)`: appends `{ ...item, id: Date.now() }` to the stored
list and returns the new item.  `now` is the value `Date.now()` returned at
this call. -/
def addItem (store : List Item) (name : String) (quantity : ℚ)
    (barcode : Option String) (now : Nat) : List Item × Item :=
  let newItem : Item := ⟨now, name, quantity, barcode⟩
  (getItems store ++ [newItem], newItem)

/-- `api.updateItem(item)`: rewrites the stored list with
`items.map(i => i.id === item.id ? item : i)` and returns `item`. -/
def updateItem (store : List Item) (item : Item) : List Item × Item :=
  ((getItems store).map (fun i => if i.id = item.id then item else i), item)

/-- `api.deleteItem(id)`: rewrites the stored list with
`items.filter(i => i.id !== id)`. -/
def deleteItem (store : List Item) (id : Nat) : List Item :=
  (getItems store).filter (fun i => i.id ≠ id)

/-- JS `String.prototype.toLowerCase()`, character by character. -/
def jsToLower (s : String) : String := ⟨s.data.map Char.toLower⟩

/-- JS `String.prototype.includes(q)`: `q` occurs as a contiguous substring. -/
def jsIncludes (s q : String) : Prop := q.data <:+: s.data

instance (s q : String) : Decidable (jsIncludes s q) := by
  unfold jsIncludes; infer_instance

/-- The predicate inside `filterInventory`'s `items.filter(...)`:
`item.name.toLowerCase().includes(search.toLowerCase()) ||
 (item.barcode && item.barcode.includes(search))`.
A missing barcode (`undefined`) and the empty string are both falsy, so the
second disjunct requires a present, non-empty barcode. -/
def codeMatches (search : String) (item : Item) : Prop :=
  jsIncludes (jsToLower item.name) (jsToLower search) ∨
    (match item.barcode with
     | some b => b ≠ "" ∧ jsIncludes b search
     | none => False)

instance (search : String) (item : Item) : Decidable (codeMatches search item) := by
  unfold codeMatches
  cases item.barcode <;> simp <;> infer_instance

/-- `filterInventory` (lines 259–265): the pure value it passes to
`setFilteredItems`. -/
def filterInventory (items : List Item) (search : String) : List Item :=
  items.filter (fun item => decide (codeMatches search item))

/-- The spec's description of the filter (§4.3): keep an item iff its name
contains the query case-insensitively, or its barcode contains the query as a
case-sensitive substring.  Written from the spec's words, to be compared with
`filterInventory`. -/
def specMatches (search : String) (item : Item) : Prop :=
  jsIncludes (jsToLower item.name) (jsToLower search) ∨
    (match item.barcode with
     | some b => jsIncludes b search
     | none => False)

instance (search : String) (item : Item) : Decidable (specMatches search item) := by
  unfold specMatches
  cases item.barcode <;> simp <;> infer_instance

/-- `items.find(item => item.barcode === code)`: strict equality of an
optional field with a string is `barcode == some code` (an absent barcode is
never `===` to a string). -/
def firstMatch (items : List Item) (code : String) : Option Item :=
  items.find? (fun item => item.barcode == some code)

/-- `handleBarcodeDetected(code)` (lines 290–298), returning the pair
(`editItem` passed to `setEditItem`, `isDialogOpen` passed to
`setIsDialogOpen`). -/
def handleBarcodeDetected (items : List Item) (code : String) :
    Option Item × Bool :=
  match firstMatch items code with
  | some item => (some item, true)
  | none => (some ⟨0, "", 1, some code⟩, true)

/-- The condition `editItem && editItem.id` used by the dialog heading and by
`handleSubmit` to choose update over create: a non-null edit target with a
truthy (non-zero) id. -/
def isEditMode (editItem : Option Item) : Bool :=
  match editItem with
  | some item => item.id != 0
  | none => false

/-- The component state touched by the handlers below. -/
structure AppState where
  items : List Item
  editItem : Option Item
  isDialogOpen : Bool
  isScannerOpen : Bool
  snackbar : Option Snackbar
deriving Repr, DecidableEq

/-- The store calls a handler run can issue, in order. -/
inductive ApiCall where
  | update (item : Item)
  | create (name : String) (quantity : ℚ) (barcode : Option String)
      (assignedId : Nat)
deriving Repr, DecidableEq

/-- `handleSubmit` (lines 300–318) on already-extracted form data: `name` and
`barcode` are the form fields (`FormData.get` yields `""` for a blank text
field, never `undefined` here), `quantity` is `Number(formData.get('quantity'))`,
and `now` is `Date.now()` inside `api.addItem` on the create path.  Validation
is `if (name && quantity > 0)`: a falsy (empty) name or a non-positive number
skips everything.  On success the update branch runs when
`editItem && editItem.id`, otherwise the create branch; both then reload the
items from storage and close the dialog.  Returns the new state and the store
calls issued. -/
def handleSubmit (st : AppState) (name : String) (quantity : ℚ)
    (barcode : String) (now : Nat) : AppState × List ApiCall :=
  if name ≠ "" ∧ 0 < quantity then
    match st.editItem with
    | some e =>
      if e.id ≠ 0 then
        let updated : Item :=
          { e with name := name, quantity := quantity, barcode := some barcode }
        let store' := (updateItem st.items updated).1
        ({ st with items := getItems store', isDialogOpen := false,
                   snackbar := some ⟨"Item actualizado", "success"⟩ },
         [ApiCall.update updated])
      else
        let store' := (addItem st.items name quantity (some barcode) now).1
        ({ st with items := getItems store', isDialogOpen := false,
                   snackbar := some ⟨"Item creado", "success"⟩ },
         [ApiCall.create name quantity (some barcode) now])
    | none =>
        let store' := (addItem st.items name quantity (some barcode) now).1
        ({ st with items := getItems store', isDialogOpen := false,
                   snackbar := some ⟨"Item creado", "success"⟩ },
         [ApiCall.create name quantity (some barcode) now])
  else
    (st, [])

/-- The hidden wedge input's `onKeyDown` on Enter (lines 352–357): feed the
accumulated value to `handleBarcodeDetected` and clear the input.  Returns
((editItem, isDialogOpen), cleared input value). -/
def wedgeEnter (items : List Item) (value : String) :
    (Option Item × Bool) × String :=
  (handleBarcodeDetected items value, "")

/-- The error snackbar message set by `initScanner`'s catch block. -/
def scannerErrorMsg : String :=
  "Error al iniciar el escáner. Asegúrate de que tu dispositivo tiene una cámara y has dado los permisos necesarios."

/-- `initScanner` (lines 267–288), assuming the overlay's video element is
mounted: `listVideoInputDevices` rejects when permission is denied, and with
permission but no device `videoInputDevices[0].deviceId` throws a `TypeError`;
either way control reaches the `catch`, which only sets the error snackbar —
`isScannerOpen` and the rest of the state are untouched.  With permission and
at least one device the decode loop starts and no state changes here. -/
def initScanner (st : AppState) (devices : List String)
    (permissionGranted : Bool) : AppState :=
  if permissionGranted then
    match devices with
    | [] => { st with snackbar := some ⟨scannerErrorMsg, "error"⟩ }
    | _ :: _ => st
  else
    { st with snackbar := some ⟨scannerErrorMsg, "error"⟩ }

/-- The camera-session view of the scanner code: whether the overlay is
rendered (`isScannerOpen`) and whether a decode session holds the camera
(a `BrowserMultiFormatReader` with `decodeFromVideoDevice` running). -/
structure ScannerSession where
  overlayOpen : Bool
  cameraHeld : Bool
deriving Repr, DecidableEq

/-- Opening the overlay (`setIsScannerOpen(true)` plus the `isScannerOpen`
effect running `initScanner`): on a successful start `decodeFromVideoDevice`
acquires the camera; on failure it is never acquired. -/
def startScanner (s : ScannerSession) (startSucceeds : Bool) : ScannerSession :=
  if startSucceeds then { s with overlayOpen := true, cameraHeld := true }
  else { s with overlayOpen := true }

/-- The user dismissing the overlay (`setIsScannerOpen(false)`): the effect
cleanup (lines 242–244) is an empty function — the comment in it records that
the `codeReaderRef.current.reset()` call was removed — so the decode session
is not stopped. -/
def closeOverlay (s : ScannerSession) : ScannerSession :=
  { s with overlayOpen := false }

/-- The first successful decode (lines 274–278): the callback calls
`handleBarcodeDetected` and `setIsScannerOpen(false)` but never `reset()` or
`stop()`, so the decode session keeps the camera. -/
def onDecodeSuccess (s : ScannerSession) : ScannerSession :=
  { s with overlayOpen := false }

/-- One create request: the submitted fields plus the `Date.now()` value
observed inside `api.addItem`. -/
structure CreateReq where
  name : String
  quantity : ℚ
  barcode : Option String
  now : Nat
deriving Repr, DecidableEq

/-- A sequence of `api.addItem` calls run one after the other (the UI
serializes them; each one takes at least the 1000 ms of `getItems`, so
successive `Date.now()` stamps are strictly increasing). -/
def createAll (store : List Item) (reqs : List CreateReq) : List Item :=
  match reqs with
  | [] => store
  | r :: rest => createAll (addItem store r.name r.quantity r.barcode r.now).1 rest

end Inventory

namespace Inventory

/-! ### Helper lemmas -/

/-- The empty query is a substring of every string. -/
theorem jsIncludes_empty_query (s : String) : jsIncludes s "" := by
  show ("" : String).data <:+: s.data
  exact List.nil_infix

/-- A string whose character list is empty is the empty string. -/
theorem eq_empty_of_data_eq_nil (s : String) (h : s.data = []) : s = "" := by
  cases s with
  | mk data => cases h; rfl

/-- The filter predicate written in the source and the one written in the
spec agree on every item: they differ only in that the source treats an
empty-string barcode as falsy, and an empty barcode can only contain the
empty query, for which the name disjunct already holds. -/
theorem codeMatches_iff_specMatches (q : String) (it : Item) :
    codeMatches q it ↔ specMatches q it := by
  unfold codeMatches specMatches
  cases hb : it.barcode with
  | none => exact Iff.rfl
  | some b =>
    constructor
    · rintro (h | ⟨_, h⟩)
      · exact Or.inl h
      · exact Or.inr h
    · rintro (h | h)
      · exact Or.inl h
      · by_cases hb0 : b = ""
        · subst hb0
          have hq : q = "" :=
            eq_empty_of_data_eq_nil q (List.sublist_nil.mp h.sublist)
          subst hq
          exact Or.inl (jsIncludes_empty_query _)
        · exact Or.inr ⟨hb0, h⟩

/-- `List.find?` returns the first satisfying element: everything strictly
before it in the list fails the predicate. -/
theorem find?_first_split {α} (p : α → Bool) (l : List α) (a : α)
    (h : l.find? p = some a) :
    ∃ pre post, l = pre ++ a :: post ∧ ∀ x ∈ pre, ¬ p x := by
  induction l with
  | nil => simp [List.find?] at h
  | cons b t ih =>
    by_cases hpb : p b
    · rw [List.find?_cons_of_pos _ hpb] at h
      cases h
      exact ⟨[], t, rfl, by simp⟩
    · rw [List.find?_cons_of_neg _ (by simp [hpb])] at h
      obtain ⟨pre, post, heq, hpre⟩ := ih h
      refine ⟨b :: pre, post, by simp [heq], ?_⟩
      rintro x hx
      rcases List.mem_cons.mp hx with rfl | hx
      · exact hpb
      · exact hpre x hx

/-- `createAll` appends one item per request, stamped with that request's
`Date.now()` value, so the id column is the old ids followed by the stamps. -/
theorem createAll_map_id (store : List Item) (reqs : List CreateReq) :
    (createAll store reqs).map Item.id
      = store.map Item.id ++ reqs.map CreateReq.now := by
  induction reqs generalizing store with
  | nil => simp [createAll]
  | cons r rest ih =>
    simp [createAll, addItem, getItems, ih]

end Inventory

namespace Inventory

/-! ### Claim theorems -/

/-- C2: `filterInventory` returns exactly the items whose name contains the
query case-insensitively or whose barcode contains the query as a
case-sensitive substring (the spec-side predicate `specMatches`), it is a
subsequence of the input (original relative order, original items), and the
empty query returns the whole list unchanged. -/
theorem c2_filter_matches_spec (items : List Item) (q : String) :
    filterInventory items q
        = items.filter (fun it => decide (specMatches q it)) ∧
    (filterInventory items q).Sublist items ∧
    filterInventory items "" = items := by
  refine ⟨?_, List.filter_sublist items, ?_⟩
  · exact List.filter_congr fun it _ => by
      simp [codeMatches_iff_specMatches]
  · exact List.filter_eq_self.mpr fun it _ => by
      simp [codeMatches]
      exact Or.inl (jsIncludes_empty_query _)

/-- C10: `deleteItem id` keeps exactly the items whose id differs from `id`
(with their multiplicities), removes every item carrying `id` even if several
share it, and is a sublist of the store — so relative order and all fields of
the survivors are unchanged. -/
theorem c10_delete_by_id (store : List Item) (id : Nat) :
    (∀ i : Item, i ∈ deleteItem store id ↔ i ∈ store ∧ i.id ≠ id) ∧
    (∀ i : Item, i.id = id → i ∉ deleteItem store id) ∧
    (deleteItem store id).Sublist store ∧
    (∀ i : Item, i.id ≠ id →
      (deleteItem store id).count i = store.count i) := by
  refine ⟨?_, ?_, List.filter_sublist _, ?_⟩
  · intro i
    simp [deleteItem, getItems, List.mem_filter]
  · intro i hi
    simp [deleteItem, getItems, List.mem_filter, hi]
  · intro i hi
    simp [deleteItem, getItems, List.count_filter, hi]

/-- C6: updating an item whose id is not in the store is a pass-through:
the `map` finds no matching id, so the stored list is unchanged and the
given item is returned. -/
theorem c6_update_absent_id (store : List Item) (item : Item)
    (h : ∀ i ∈ store, i.id ≠ item.id) :
    updateItem store item = (store, item) := by
  unfold updateItem getItems
  have hmap : store.map (fun i => if i.id = item.id then item else i)
      = store.map (fun i => i) := List.map_congr_left fun i hi => by
    simp [h i hi]
  rw [hmap, List.map_id']

/-- Witness for C6 at a concrete store and item. -/
theorem c6_update_absent_id_witness :
    updateItem [⟨1, "a", 2, none⟩] ⟨9, "b", 3, none⟩
      = ([⟨1, "a", 2, none⟩], ⟨9, "b", 3, none⟩) :=
  c6_update_absent_id _ _ (by decide)

end Inventory

namespace Inventory

/-- C1: resolving a barcode always opens the dialog; if the scan of the list
finds a first item whose `barcode` field equals the code exactly, the dialog's
edit target is exactly that item (a member of the list, strictly earlier
entries all failing the match) and the dialog is in edit mode whenever the
item's id is non-zero; if no item matches, the edit target is the create
sentinel `{id: 0, name: "", quantity: 1, barcode: code}`, which is create
mode. -/
theorem c1_barcode_resolution (items : List Item) (code : String) :
    (handleBarcodeDetected items code).2 = true ∧
    (∀ it : Item, firstMatch items code = some it →
      (handleBarcodeDetected items code).1 = some it ∧
      it ∈ items ∧ it.barcode = some code ∧
      (it.id ≠ 0 → isEditMode (handleBarcodeDetected items code).1 = true) ∧
      ∃ pre post, items = pre ++ it :: post ∧
        ∀ x ∈ pre, x.barcode ≠ some code) ∧
    (firstMatch items code = none →
      (∀ it ∈ items, it.barcode ≠ some code) ∧
      handleBarcodeDetected items code = (some ⟨0, "", 1, some code⟩, true) ∧
      isEditMode (handleBarcodeDetected items code).1 = false) := by
  refine ⟨?_, ?_, ?_⟩
  · unfold handleBarcodeDetected
    cases firstMatch items code <;> rfl
  · intro it hfind
    have hfind' : items.find? (fun item => item.barcode == some code) = some it :=
      hfind
    have hmem : it ∈ items := List.mem_of_find?_eq_some hfind'
    have hp := List.find?_some hfind'
    have hbar : it.barcode = some code := by simpa using hp
    refine ⟨?_, hmem, hbar, ?_, ?_⟩
    · unfold handleBarcodeDetected
      rw [hfind]
    · intro hid
      unfold handleBarcodeDetected
      rw [hfind]
      simp [isEditMode, hid]
    · obtain ⟨pre, post, heq, hpre⟩ := find?_first_split _ _ _ hfind'
      exact ⟨pre, post, heq, fun x hx hbx => hpre x hx (by simp [hbx])⟩
  · intro hnone
    have hnone' : items.find? (fun item => item.barcode == some code) = none :=
      hnone
    refine ⟨?_, ?_, ?_⟩
    · intro it hit hbar
      have := List.find?_eq_none.mp hnone' it hit
      simp [hbar] at this
    · unfold handleBarcodeDetected
      rw [hnone]
    · unfold handleBarcodeDetected
      rw [hnone]
      simp [isEditMode]

/-- Witness for C1: a matching barcode resolves to the stored item, a
missing one to the create sentinel. -/
theorem c1_barcode_resolution_witness :
    (handleBarcodeDetected [⟨5, "a", 1, some "x"⟩] "x").1
      = some ⟨5, "a", 1, some "x"⟩ ∧
    handleBarcodeDetected [⟨5, "a", 1, some "x"⟩] "y"
      = (some ⟨0, "", 1, some "y"⟩, true) := by
  constructor
  · exact ((c1_barcode_resolution [⟨5, "a", 1, some "x"⟩] "x").2.1
      ⟨5, "a", 1, some "x"⟩ (by decide)).1
  · exact ((c1_barcode_resolution [⟨5, "a", 1, some "x"⟩] "y").2.2
      (by decide)).2.1

end Inventory

namespace Inventory

/-- C3 counterexample: the claim requires that no create or update happens
unless the submitted quantity is a *positive integer*, but `handleSubmit`
only checks `quantity > 0`: at name `"a"` and quantity `5/2` (what
`Number("2.5")` yields) it issues a create and stores the fractional
quantity, and `5/2` is not an integer. -/
theorem c3_validation_counterexample :
    (handleSubmit ⟨[], none, true, false, none⟩ "a" (5/2) "" 7).2
        = [ApiCall.create "a" (5/2) (some "") 7] ∧
    (handleSubmit ⟨[], none, true, false, none⟩ "a" (5/2) "" 7).1.items
        = [⟨7, "a", 5/2, some ""⟩] ∧
    ¬ ∃ n : ℤ, ((5 : ℚ)/2) = (n : ℚ) := by
  have hval : ("a" : String) ≠ "" ∧ (0 : ℚ) < 5/2 := ⟨by decide, by norm_num⟩
  refine ⟨?_, ?_, ?_⟩
  · rw [handleSubmit, if_pos hval]
  · rw [handleSubmit, if_pos hval]
    simp [addItem, getItems]
  · rintro ⟨n, hn⟩
    have hden := Rat.den_intCast n
    rw [← hn] at hden
    norm_num [Rat.den] at hden

/-- C3 as amended: `handleSubmit` performs no create and no update and leaves
the entire state (dialog open flag, store, snackbar) unchanged unless the
submitted name is non-empty and the submitted quantity is positive; and any
run that does issue a store call had a non-empty name and positive quantity. -/
theorem c3_validation (st : AppState) (name : String) (q : ℚ)
    (barcode : String) (now : Nat) :
    (¬ (name ≠ "" ∧ 0 < q) →
      handleSubmit st name q barcode now = (st, [])) ∧
    ((handleSubmit st name q barcode now).2 ≠ [] → name ≠ "" ∧ 0 < q) := by
  by_cases h : name ≠ "" ∧ 0 < q
  · exact ⟨fun hc => absurd h hc, fun _ => h⟩
  · refine ⟨fun _ => ?_, fun hcalls => ?_⟩
    · rw [handleSubmit, if_neg h]
    · rw [handleSubmit, if_neg h] at hcalls
      simp at hcalls

/-- Witness for C3: an empty name is rejected, leaving the open dialog,
store and snackbar exactly as they were with no store call. -/
theorem c3_validation_witness :
    handleSubmit ⟨[⟨1, "a", 2, none⟩], none, true, false, none⟩ "" 3 "b" 7
      = (⟨[⟨1, "a", 2, none⟩], none, true, false, none⟩, []) :=
  (c3_validation ⟨[⟨1, "a", 2, none⟩], none, true, false, none⟩ "" 3 "b" 7).1
    (by simp)

/-- C4: on a valid submit (non-empty name, positive quantity) the dialog
closes, and: with an edit target holding a non-zero id, exactly one
update-by-id is issued carrying that same id and the new field values, and
the store maps only the matching id to the new record; with no edit target
in edit mode, exactly one create is issued and the store appends a record
whose id is the store-assigned `Date.now()` stamp. -/
theorem c4_submit_update_or_create (st : AppState) (name : String) (q : ℚ)
    (barcode : String) (now : Nat) (hname : name ≠ "") (hq : 0 < q) :
    (handleSubmit st name q barcode now).1.isDialogOpen = false ∧
    (∀ e : Item, st.editItem = some e → e.id ≠ 0 →
      (handleSubmit st name q barcode now).2
          = [ApiCall.update ⟨e.id, name, q, some barcode⟩] ∧
      (handleSubmit st name q barcode now).1.items
          = st.items.map
              (fun i => if i.id = e.id then ⟨e.id, name, q, some barcode⟩ else i)) ∧
    (isEditMode st.editItem = false →
      (handleSubmit st name q barcode now).2
          = [ApiCall.create name q (some barcode) now] ∧
      (handleSubmit st name q barcode now).1.items
          = st.items ++ [⟨now, name, q, some barcode⟩]) := by
  have hval : name ≠ "" ∧ 0 < q := ⟨hname, hq⟩
  refine ⟨?_, ?_, ?_⟩
  · rw [handleSubmit, if_pos hval]
    cases he : st.editItem with
    | none => rfl
    | some e => by_cases hid : e.id ≠ 0 <;> simp [hid]
  · intro e he hid
    rw [handleSubmit, if_pos hval, he]
    simp [hid, updateItem, getItems]
  · intro hmode
    rw [handleSubmit, if_pos hval]
    cases he : st.editItem with
    | none => simp [addItem, getItems]
    | some e =>
      rw [he] at hmode
      simp [isEditMode] at hmode
      simp [hmode, addItem, getItems]

/-- Witness for C4: a valid submit over an edit target with id 5 issues the
update keeping id 5; over no edit target it issues the create with the
stamped id. -/
theorem c4_submit_update_or_create_witness :
    (handleSubmit ⟨[⟨5, "a", 1, some "x"⟩], some ⟨5, "a", 1, some "x"⟩,
        true, false, none⟩ "b" 8 "x" 99).2
      = [ApiCall.update ⟨5, "b", 8, some "x"⟩] ∧
    (handleSubmit ⟨[], none, true, false, none⟩ "b" 8 "x" 99).2
      = [ApiCall.create "b" 8 (some "x") 99] := by
  constructor
  · exact ((c4_submit_update_or_create _ "b" 8 "x" 99 (by decide) (by norm_num)).2.1
      ⟨5, "a", 1, some "x"⟩ rfl (by decide)).1
  · exact ((c4_submit_update_or_create _ "b" 8 "x" 99 (by decide) (by norm_num)).2.2
      (by decide)).1

end Inventory

namespace Inventory

/-- C5: from a store whose ids are strictly increasing and a run of creates
whose `Date.now()` stamps keep increasing past them (which the serialized UI
and the 1000 ms storage read before each stamp guarantee), every stored item
keeps a unique id (`Nodup`), and ids appear in strictly increasing creation
order — monotone assignment. -/
theorem c5_unique_monotone_ids (store : List Item) (reqs : List CreateReq)
    (h : (store.map Item.id ++ reqs.map CreateReq.now).Pairwise (· < ·)) :
    ((createAll store reqs).map Item.id).Pairwise (· < ·) ∧
    ((createAll store reqs).map Item.id).Nodup ∧
    (createAll store reqs).map Item.id
      = store.map Item.id ++ reqs.map CreateReq.now := by
  have hid := createAll_map_id store reqs
  rw [hid]
  exact ⟨h, h.imp Nat.ne_of_lt, rfl⟩

/-- Witness for C5: two creates stamped after the existing id stay unique
and increasing. -/
theorem c5_unique_monotone_ids_witness :
    ((createAll [⟨1, "a", 2, none⟩]
        [⟨"b", 3, none, 5⟩, ⟨"c", 4, none, 9⟩]).map Item.id).Nodup ∧
    (createAll [⟨1, "a", 2, none⟩]
        [⟨"b", 3, none, 5⟩, ⟨"c", 4, none, 9⟩]).map Item.id = [1, 5, 9] := by
  have h := c5_unique_monotone_ids [⟨1, "a", 2, none⟩]
    [⟨"b", 3, none, 5⟩, ⟨"c", 4, none, 9⟩] (by decide)
  exact ⟨h.2.1, h.2.2⟩

/-- C7 is false of the code: after a successful scanner start, both exit
paths that close the overlay — the user dismissing it and the first
successful decode — leave the decode session holding the camera, because the
effect cleanup is empty (the `reset()` call was removed) and the decode
callback never stops the reader.  So the system does hold the camera after
the overlay is closed; only the error-during-start path never acquires it. -/
theorem c7_camera_not_released :
    (closeOverlay (startScanner ⟨false, false⟩ true)).overlayOpen = false ∧
    (closeOverlay (startScanner ⟨false, false⟩ true)).cameraHeld = true ∧
    (onDecodeSuccess (startScanner ⟨false, false⟩ true)).overlayOpen = false ∧
    (onDecodeSuccess (startScanner ⟨false, false⟩ true)).cameraHeld = true ∧
    (startScanner ⟨false, false⟩ false).cameraHeld = false := by
  decide

/-- C8: when starting the decode loop fails — no device enumerated or
permission denied — `initScanner` returns normally (it is a total function:
the throw lands in its own catch), sets the user-visible error snackbar, and
leaves the scanner-open flag, the item list, the edit target and the dialog
flag untouched. -/
theorem c8_scanner_start_failure (st : AppState) (devices : List String)
    (perm : Bool) (h : devices = [] ∨ perm = false) :
    (initScanner st devices perm).snackbar
        = some ⟨scannerErrorMsg, "error"⟩ ∧
    (initScanner st devices perm).isScannerOpen = st.isScannerOpen ∧
    (initScanner st devices perm).items = st.items ∧
    (initScanner st devices perm).editItem = st.editItem ∧
    (initScanner st devices perm).isDialogOpen = st.isDialogOpen := by
  rcases h with h | h
  · subst h
    cases perm <;> simp [initScanner]
  · subst h
    simp [initScanner]

/-- Witness for C8: with the overlay open and no camera device, the error
snackbar is set and the overlay stays open with the list intact. -/
theorem c8_scanner_start_failure_witness :
    (initScanner ⟨[⟨1, "a", 2, none⟩], none, false, true, none⟩ [] true).snackbar
        = some ⟨scannerErrorMsg, "error"⟩ ∧
    (initScanner ⟨[⟨1, "a", 2, none⟩], none, false, true, none⟩ [] true).isScannerOpen
        = true ∧
    (initScanner ⟨[⟨1, "a", 2, none⟩], none, false, true, none⟩ [] true).items
        = [⟨1, "a", 2, none⟩] := by
  have h := c8_scanner_start_failure
    ⟨[⟨1, "a", 2, none⟩], none, false, true, none⟩ [] true (Or.inl rfl)
  exact ⟨h.1, h.2.1, h.2.2.1⟩

/-- C9: resolving the empty string is not special-cased.  Pressing Enter on
the empty wedge input clears it and resolves the code `""`: if some stored
item's barcode field is exactly `""` the first such item becomes the edit
target, otherwise the create sentinel with barcode `""` does; and a create
submitted with a blank barcode field really stores `barcode = some ""`
(rather than omitting the field), so such items exist and are found. -/
theorem c9_empty_barcode_not_special (items : List Item) (st : AppState)
    (name : String) (q : ℚ) (now : Nat) :
    (wedgeEnter items "").2 = "" ∧
    (∀ it : Item, firstMatch items "" = some it →
      it ∈ items ∧ it.barcode = some "" ∧
      (wedgeEnter items "").1 = (some it, true)) ∧
    (firstMatch items "" = none →
      (wedgeEnter items "").1 = (some ⟨0, "", 1, some ""⟩, true)) ∧
    (st.editItem = none → name ≠ "" → 0 < q →
      (handleSubmit st name q "" now).1.items
          = st.items ++ [⟨now, name, q, some ""⟩]) := by
  refine ⟨rfl, ?_, ?_, ?_⟩
  · intro it hfind
    have hfind' : items.find? (fun item => item.barcode == some "") = some it :=
      hfind
    have hp := List.find?_some hfind'
    refine ⟨List.mem_of_find?_eq_some hfind', by simpa using hp, ?_⟩
    unfold wedgeEnter handleBarcodeDetected
    rw [hfind]
  · intro hnone
    unfold wedgeEnter handleBarcodeDetected
    rw [hnone]
  · intro he hname hq
    rw [handleSubmit, if_pos ⟨hname, hq⟩, he]
    simp [addItem, getItems]

/-- Witness for C9: an item stored with barcode `""` is found by resolving
the empty code, and submitting a blank barcode stores `some ""`. -/
theorem c9_empty_barcode_not_special_witness :
    (wedgeEnter [⟨3, "c", 1, some ""⟩] "").1 = (some ⟨3, "c", 1, some ""⟩, true) ∧
    (wedgeEnter [] "").1 = (some ⟨0, "", 1, some ""⟩, true) ∧
    (handleSubmit ⟨[], none, true, false, none⟩ "c" 1 "" 3).1.items
        = [⟨3, "c", 1, some ""⟩] := by
  refine ⟨?_, ?_, ?_⟩
  · exact ((c9_empty_barcode_not_special [⟨3, "c", 1, some ""⟩]
      ⟨[], none, true, false, none⟩ "c" 1 3).2.1 ⟨3, "c", 1, some ""⟩ (by decide)).2.2
  · exact (c9_empty_barcode_not_special []
      ⟨[], none, true, false, none⟩ "c" 1 3).2.2.1 (by decide)
  · exact (c9_empty_barcode_not_special []
      ⟨[], none, true, false, none⟩ "c" 1 3).2.2.2 rfl (by decide) (by norm_num)

end Inventory

namespace Inventory

/-- Witness for C10: deleting id 2 removes both items that share it and
keeps the surviving item with its multiplicity. -/
theorem c10_delete_by_id_witness :
    (⟨2, "b", 3, none⟩ : Item)
        ∉ deleteItem [⟨1, "a", 2, none⟩, ⟨2, "b", 3, none⟩, ⟨2, "c", 4, none⟩] 2 ∧
    (deleteItem [⟨1, "a", 2, none⟩, ⟨2, "b", 3, none⟩, ⟨2, "c", 4, none⟩] 2).count
        ⟨1, "a", 2, none⟩ = 1 := by
  refine ⟨?_, ?_⟩
  · exact (c10_delete_by_id _ 2).2.1 ⟨2, "b", 3, none⟩ rfl
  · rw [(c10_delete_by_id [⟨1, "a", 2, none⟩, ⟨2, "b", 3, none⟩, ⟨2, "c", 4, none⟩]
      2).2.2.2 ⟨1, "a", 2, none⟩ (by decide)]
    decide

end Inventory
